import Mathlib

/-!
Verification development for the pact-python-v3 native binding
(`src/lib.rs`, `src/verifier.rs`).

The Rust binding is shallowly embedded: Python host values become the
inductive `PyValue`, `serde_json::Value` becomes `JsonVal`, the
interaction-builder class `PactNative` becomes explicit state passing over
`BuilderState`, and the process-wide mock-server manager becomes an
explicit `Registry` value.  External collaborators (the pact matching
engine, the `url` crate, the file system, the mock-server engine) are
modelled by explicit parameters or by small documented interface models,
since only their interfaces are visible from this crate.
-/

set_option maxHeartbeats 1000000

/-- Python exceptions raised by the binding (`PyErr::new::<exc::...>`).
Only the exception classes actually used in the source are modelled. -/
inductive PyErr where
  | typeError (msg : String)
  | attributeError (msg : String)
  | overflowError (msg : String)
deriving DecidableEq, Repr

/-- Model of a `serde_json::Number` as the interface the binding consumes:
the three accessors `as_u64`, `as_i64`, `as_f64` (see `json_to_pyobj`).
Finite doubles are modelled exactly as rationals. -/
structure JsonNum where
  asU64 : Option Nat
  asI64 : Option Int
  asF64 : Option Rat
deriving DecidableEq, Repr

/-- Number node built by `json!(n)` for an `i64` value `n`: serde stores a
non-negative value in its unsigned representation (`as_u64` succeeds) and a
negative one in the signed representation. -/
def numFromI64 (n : Int) : JsonNum :=
  { asU64 := if 0 ≤ n then some n.toNat else none
    asI64 := some n
    asF64 := some (n : Rat) }

/-- Number node built by `json!(f)` for a finite `f64` value: stored in the
floating representation, on which serde's `as_u64` and `as_i64` fail. -/
def numFromF64 (q : Rat) : JsonNum :=
  { asU64 := none, asI64 := none, asF64 := some q }

/-- Canonical JSON value (`serde_json::Value`).  Objects are association
lists ordered by key, mirroring the `BTreeMap` inside `serde_json::Map`. -/
inductive JsonVal where
  | null
  | bool (b : Bool)
  | num (n : JsonNum)
  | str (s : String)
  | arr (xs : List JsonVal)
  | obj (kvs : List (String × JsonVal))

/-- Payload of a present body.  The source stores raw bytes
(`Bytes`); serialization of a processed JSON value to its byte string and
UTF-8 encoding of literal strings are abstracted into the tag, which is all
the claims observe. -/
inductive BodyData where
  | ofJson (v : JsonVal)
  | ofString (s : String)
  | ofFile (bytes : List Nat)

/-- Content type as consumed by the binding: its rendered string
(`to_string()`) and the single predicate `is_json()` the code dispatches
on (pact_matching collaborator interface). -/
structure ContentType where
  value : String
  isJson : Bool
deriving DecidableEq, Repr

/-- Subset of `pact_matching::models::OptionalBody` used by the binding. -/
inductive OptionalBody where
  | missing
  | empty
  | present (data : BodyData) (contentType : Option ContentType)

/-- Dynamic host value handed over the Python boundary.  `other` stands for
any object of an unrecognized type and carries its type name. -/
inductive PyValue where
  | none
  | bool (b : Bool)
  | int (n : Int)
  | float (q : Rat)
  | str (s : String)
  | list (xs : List PyValue)
  | tuple (xs : List PyValue)
  | dict (kvs : List (PyValue × PyValue))
  | other (typeName : String)

/-- Python-level type name (`val.get_type(py).name(py)`), used by the
source both in error messages and in the `!= "NoneType"` guards. -/
def pyTypeName : PyValue → String
  | .none => "NoneType"
  | .bool _ => "bool"
  | .int _ => "int"
  | .float _ => "float"
  | .str _ => "str"
  | .list _ => "list"
  | .tuple _ => "tuple"
  | .dict _ => "dict"
  | .other t => t

/-- Lexicographic string order of Rust's `Ord for String`, spelled out
over character scalar values. -/
def charListLt : List Char → List Char → Bool
  | [], [] => false
  | [], _ :: _ => true
  | _ :: _, [] => false
  | a :: as, b :: bs =>
    if a.val < b.val then true
    else if b.val < a.val then false
    else charListLt as bs

/-- Key order of the `BTreeMap` inside `serde_json::Map`. -/
def strLt (a b : String) : Bool := charListLt a.toList b.toList

/-- Insertion into a `serde_json::Map` (a `BTreeMap` keyed by `String`):
the association list stays sorted by key, and an existing binding for the
same key is replaced. -/
def mapInsert : List (String × JsonVal) → String → JsonVal → List (String × JsonVal)
  | [], k, v => [(k, v)]
  | (k', v') :: rest, k, v =>
    if strLt k k' then (k, v) :: (k', v') :: rest
    else if k = k' then (k, v) :: rest
    else (k', v') :: mapInsert rest k v

/-- Signed 64-bit range check used when extracting a Python integer into
an `i64` (`val.extract::<i64>(py)?`). -/
def fitsI64 (n : Int) : Prop := -(2 ^ 63) ≤ n ∧ n < 2 ^ 63

instance (n : Int) : Decidable (fitsI64 n) := by
  unfold fitsI64; infer_instance

mutual

/-- Embedding of `pyobj_to_json` (src/lib.rs lines 445-490): converts a
host value to canonical JSON.  The branch order of the source is kept:
string, bool, float, int (an out-of-range integer fails the `i64`
extraction), list, tuple, generic sequence (subsumed by `list`/`tuple`
here), dict (each value converted before its key is cast), otherwise a
`TypeError`.  Python `None` reaches the fallback branch: the source has no
null case. -/
def pyobj_to_json : PyValue → Except PyErr JsonVal
  | .str s => .ok (.str s)
  | .bool b => .ok (.bool b)
  | .float q => .ok (.num (numFromF64 q))
  | .int n =>
    if fitsI64 n then .ok (.num (numFromI64 n))
    else .error (.overflowError "Python int too large to convert to C long")
  | .list xs =>
    match pyListToJson xs with
    | .ok a => .ok (.arr a)
    | .error e => .error e
  | .tuple xs =>
    match pyListToJson xs with
    | .ok a => .ok (.arr a)
    | .error e => .error e
  | .dict kvs =>
    match pyDictToJson kvs [] with
    | .ok m => .ok (.obj m)
    | .error e => .error e
  | v => .error (.typeError ("Could not convert Python object to a JSON form - " ++ pyTypeName v))
termination_by structural v => v

/-- Element-wise conversion of a Python list/tuple, stopping at the first
failing element (the `?` inside the loop). -/
def pyListToJson : List PyValue → Except PyErr (List JsonVal)
  | [] => .ok []
  | x :: xs =>
    match pyobj_to_json x with
    | .error e => .error e
    | .ok j =>
      match pyListToJson xs with
      | .error e => .error e
      | .ok js => .ok (j :: js)
termination_by structural xs => xs

/-- Entry-wise conversion of a Python dict into a `serde_json::Map`
accumulator: for each entry the value is converted first, then the key must
cast to a string, then the pair is inserted into the map. -/
def pyDictToJson : List (PyValue × PyValue) → List (String × JsonVal) → Except PyErr (List (String × JsonVal))
  | [], acc => .ok acc
  | (k, v) :: rest, acc =>
    match pyobj_to_json v with
    | .error e => .error e
    | .ok j =>
      match k with
      | .str s => pyDictToJson rest (mapInsert acc s j)
      | kv => .error (.typeError ("expected a string key, got " ++ pyTypeName kv))
termination_by structural kvs _ => kvs

end

mutual

/-- Embedding of `json_to_pyobj` (src/lib.rs lines 492-507): total
conversion from canonical JSON back to a host value.  Numbers are probed
as `as_u64`, then `as_i64`, then `as_f64` with fallback `0.0`; objects are
returned as a dict over the same entries (the intermediate Rust `HashMap`
only permutes entries and is dropped here, dict equality being
observational). -/
def json_to_pyobj : JsonVal → PyValue
  | .null => .none
  | .bool b => .bool b
  | .num n =>
    match n.asU64 with
    | some u => .int u
    | Option.none =>
      match n.asI64 with
      | some z => .int z
      | Option.none => .float (n.asF64.getD 0)
  | .str s => .str s
  | .arr xs => .list (jsonListToPy xs)
  | .obj kvs => .dict (jsonObjToPy kvs)
termination_by structural v => v

def jsonListToPy : List JsonVal → List PyValue
  | [] => []
  | x :: xs => json_to_pyobj x :: jsonListToPy xs
termination_by structural xs => xs

def jsonObjToPy : List (String × JsonVal) → List (PyValue × PyValue)
  | [] => []
  | (k, v) :: rest => (.str k, json_to_pyobj v) :: jsonObjToPy rest
termination_by structural kvs => kvs

end

/-- Keys of a Python dict that are strings, in order. -/
def keyStrings (kvs : List (PyValue × PyValue)) : List String :=
  kvs.filterMap (fun kv => match kv.1 with | .str s => some s | _ => Option.none)

mutual

/-- The sub-taxonomy of `PyValue` on which `pyobj_to_json` succeeds and the
round trip can be stated: no `None`, integers inside the signed 64-bit
range, sequences element-wise convertible, mappings with distinct string
keys and convertible values. -/
def convertible : PyValue → Bool
  | .none => false
  | .bool _ => true
  | .int n => decide (fitsI64 n)
  | .float _ => true
  | .str _ => true
  | .list xs => convertibleList xs
  | .tuple _ => false
  | .dict kvs => convertibleEntries kvs && decide (keyStrings kvs).Nodup
  | .other _ => false
termination_by structural v => v

def convertibleList : List PyValue → Bool
  | [] => true
  | x :: xs => convertible x && convertibleList xs
termination_by structural xs => xs

def convertibleEntries : List (PyValue × PyValue) → Bool
  | [] => true
  | (k, v) :: rest =>
    (match k with | .str _ => true | _ => false) && convertible v && convertibleEntries rest
termination_by structural kvs => kvs

end

mutual

/-- Observational equality of host values, as used by the round-trip
property: scalars compare by value, sequences element-wise in order, and
mappings up to entry permutation (same key multiset, hence same key set,
with observationally equal values per key). -/
inductive ObsEq : PyValue → PyValue → Prop where
  | none : ObsEq .none .none
  | bool (b : Bool) : ObsEq (.bool b) (.bool b)
  | int (n : Int) : ObsEq (.int n) (.int n)
  | float (q : Rat) : ObsEq (.float q) (.float q)
  | str (s : String) : ObsEq (.str s) (.str s)
  | list {xs ys : List PyValue} : ObsEqList xs ys → ObsEq (.list xs) (.list ys)
  | dict {xs ys zs : List (PyValue × PyValue)} :
      xs.Perm zs → ObsEqEntries zs ys → ObsEq (.dict xs) (.dict ys)

inductive ObsEqList : List PyValue → List PyValue → Prop where
  | nil : ObsEqList [] []
  | cons {x y : PyValue} {xs ys : List PyValue} :
      ObsEq x y → ObsEqList xs ys → ObsEqList (x :: xs) (y :: ys)

inductive ObsEqEntries : List (PyValue × PyValue) → List (PyValue × PyValue) → Prop where
  | nil : ObsEqEntries [] []
  | cons {k₁ k₂ v₁ v₂ : PyValue} {xs ys : List (PyValue × PyValue)} :
      k₁ = k₂ → ObsEq v₁ v₂ → ObsEqEntries xs ys →
      ObsEqEntries ((k₁, v₁) :: xs) ((k₂, v₂) :: ys)

end

/-- Multimap used for query parameters and headers
(`HashMap<String, Vec<String>>`), as an association list. -/
abbrev StrMultiMap := List (String × List String)

/-- Matching rule variants used by the binding: only
`MatchingRule::ContentType` is constructed in the source. -/
inductive MatchingRule where
  | contentType (ct : String)

/-- Rule combination logic (`RuleLogic`). -/
inductive RuleLogic where
  | and
  | or

/-- Matching-rule set: category name to list of (path, rule, logic)
entries, routed into by the binding (contents owned by the matching
engine). -/
structure MatchingRules where
  rules : List (String × List (String × MatchingRule × RuleLogic))

/-- Generator set; the binding only passes it to the external walk, which
is outside this core, so its contents stay untouched here. -/
structure Generators where
  categories : List (String × List (String × String))

/-- Empty rule set (`MatchingRules::default`). -/
def emptyMatchingRules : MatchingRules := ⟨[]⟩

/-- Empty generator set (`Generators::default`). -/
def emptyGenerators : Generators := ⟨[]⟩

/-- `matching_rules.add_category(name)`: guarantees the category exists,
leaving an existing one alone. -/
def addCategory (mr : MatchingRules) (name : String) : MatchingRules :=
  if (mr.rules.map Prod.fst).contains name then mr
  else ⟨mr.rules ++ [(name, [])]⟩

/-- `category.add_rule(path, rule, logic)` applied to a named category of
the rule set. -/
def addRule (mr : MatchingRules) (cat path : String) (rule : MatchingRule) (logic : RuleLogic) : MatchingRules :=
  ⟨mr.rules.map (fun c => if c.1 = cat then (c.1, c.2 ++ [(path, rule, logic)]) else c)⟩

/-- Provider state precondition (`ProviderState`): name plus JSON-valued
parameters. -/
structure ProviderState where
  name : String
  params : List (String × JsonVal)

/-- Request half of an interaction (subset of
`pact_matching::models::Request` touched by the binding). -/
structure HttpRequest where
  method : String
  path : String
  query : Option StrMultiMap
  headers : Option StrMultiMap
  body : OptionalBody
  matchingRules : MatchingRules
  generators : Generators

/-- Response half of an interaction (subset of
`pact_matching::models::Response` touched by the binding). -/
structure HttpResponse where
  status : Nat
  headers : Option StrMultiMap
  body : OptionalBody
  matchingRules : MatchingRules
  generators : Generators

/-- `Request::default()` of the collaborator model: method GET, root path,
nothing else set. -/
def defaultRequest : HttpRequest :=
  { method := "GET", path := "/", query := Option.none, headers := Option.none
    body := .missing, matchingRules := emptyMatchingRules, generators := emptyGenerators }

/-- `Response::default()` of the collaborator model: status 200, nothing
else set. -/
def defaultResponse : HttpResponse :=
  { status := 200, headers := Option.none, body := .missing
    matchingRules := emptyMatchingRules, generators := emptyGenerators }

/-- One request/response interaction
(`RequestResponseInteraction`). -/
structure Interaction where
  description : String
  providerStates : List ProviderState
  request : HttpRequest
  response : HttpResponse

/-- `RequestResponseInteraction::default()`. -/
def defaultInteraction : Interaction :=
  { description := "Default Interaction", providerStates := []
    request := defaultRequest, response := defaultResponse }

/-- Pact document owned by one builder (`RequestResponsePact`). -/
structure RequestResponsePact where
  consumer : String
  provider : String
  metadata : List (String × List (String × String))
  interactions : List Interaction

/-- Builder state: the two `RefCell` fields of the `PactNative` Python
class, the pact document and the cursor of the currently open
interaction (`None` is the Idle state, `Some i` is Building at index
`i`). -/
structure BuilderState where
  pact : RequestResponsePact
  interaction : Option Nat

/-- `PactNative::__new__`: fresh pact with the given consumer/provider
names, default metadata extended with the binding version, no
interactions, Idle cursor. -/
def newPactNative (consumer_name provider_name version : String) : BuilderState :=
  { pact :=
      { consumer := consumer_name, provider := provider_name
        metadata := [("pactSpecification", [("version", "3.0.0")]),
                     ("pactPython", [("version", version)])]
        interactions := [] }
    interaction := Option.none }

/-- Embedding of `PactNative::with_current_interaction` (src/lib.rs lines
305-318).  The callback returns the mutated interaction together with an
optional error: in Rust the callback mutates through `&mut`, so mutations
made before a failure are kept.  When Idle, a default interaction is
created, the callback runs on it, and the interaction is appended and the
cursor set to its index whatever the callback outcome was. -/
def with_current_interaction (s : BuilderState)
    (callback : Interaction → Interaction × Option PyErr) : BuilderState × Option PyErr :=
  match s.interaction with
  | some i =>
    let r := callback (s.pact.interactions.getD i defaultInteraction)
    ({ s with pact := { s.pact with interactions := s.pact.interactions.set i r.1 } }, r.2)
  | Option.none =>
    let r := callback defaultInteraction
    ({ pact := { s.pact with interactions := s.pact.interactions ++ [r.1] }
       interaction := some s.pact.interactions.length }, r.2)

/-- Key-then-value string extraction for one query/header dict entry as in
the repeated population loops: the key must cast to a string (hard
failure), a non-string value is dropped to an empty vector (the
`TODO: deal with a matcher or a list` branch). -/
def buildStringMap : List (PyValue × PyValue) → Except PyErr StrMultiMap
  | [] => .ok []
  | (k, v) :: rest =>
    match k with
    | .str ks =>
      let vs : List String := match v with | .str s => [s] | _ => []
      match buildStringMap rest with
      | .error e => .error e
      | .ok m => .ok ((ks, vs) :: m)
    | kv => .error (.typeError ("expected a string key, got " ++ pyTypeName kv))

/-- Shared shape of the query/headers population blocks: a dict is fully
converted and, when non-empty, replaces the field; `None` leaves the field
alone; anything else is a `TypeError` naming the actual type.  The current
field value is returned unchanged on every failure path. -/
def applyDictStage (v : PyValue) (cur : Option StrMultiMap) (errMsg : String) :
    Option StrMultiMap × Option PyErr :=
  match v with
  | .dict kvs =>
    match buildStringMap kvs with
    | .error e => (cur, some e)
    | .ok m => (if m.isEmpty then cur else some m, Option.none)
  | .none => (cur, Option.none)
  | w => (cur, some (.typeError (errMsg ++ pyTypeName w)))

/-- Modelled collaborator predicate `ContentType::is_json()` of
pact_matching: base type `application` with subtype `json` or a `+json`
suffix, parameters ignored. -/
def contentTypeIsJson (s : String) : Bool :=
  let base := s.toList.takeWhile (fun c => c != ';')
  let main := base.takeWhile (fun c => c != '/')
  match base.dropWhile (fun c => c != '/') with
  | '/' :: sub =>
    if sub.contains '/' then false
    else main == "application".toList
      && (sub == "json".toList || "+json".toList.isSuffixOf sub)
  | _ => false

/-- Modelled collaborator `ContentType::parse` (only the fields the
binding reads). -/
def parseContentType (s : String) : ContentType :=
  { value := s, isJson := contentTypeIsJson s }

/-- `ContentType::default()` of the collaborator: the wildcard type, not
JSON. -/
def defaultContentType : ContentType := { value := "*/*", isJson := false }

/-- ASCII lowercasing of the Rust `to_lowercase()` call on header names,
spelled over the character list so it evaluates on concrete inputs. -/
def lowerAscii (s : String) : String := String.mk (s.data.map Char.toLower)

/-- Modelled collaborator lookup of a header value: case-insensitive key
comparison, first matching entry. -/
def headerValue (headers : Option StrMultiMap) (key : String) : Option (List String) :=
  match headers with
  | Option.none => Option.none
  | some hs => (hs.find? (fun h => lowerAscii h.1 == lowerAscii key)).map Prod.snd

/-- Modelled collaborator `HttpPart::has_header`. -/
def hasHeader (headers : Option StrMultiMap) (key : String) : Bool :=
  (headerValue headers key).isSome

/-- Modelled collaborator `add_header`: creates the header map when
missing and inserts the value, replacing an existing binding for the same
key. -/
def addHeaderMap (headers : Option StrMultiMap) (key : String) (vs : List String) : Option StrMultiMap :=
  match headers with
  | Option.none => some [(key, vs)]
  | some hs =>
    if (hs.map Prod.fst).contains key
    then some (hs.map (fun h => if h.1 = key then (key, vs) else h))
    else some (hs ++ [(key, vs)])

/-- Modelled collaborator `HttpPart::content_type()` for the request: the
content type attached to a present body, else the parsed Content-Type
header. -/
def requestContentType (r : HttpRequest) : Option ContentType :=
  match r.body with
  | .present _ (some ct) => some ct
  | _ => (headerValue r.headers "Content-Type").bind
      (fun vs => vs.head?.map parseContentType)

/-- Modelled collaborator `HttpPart::content_type()` for the response. -/
def responseContentType (r : HttpResponse) : Option ContentType :=
  match r.body with
  | .present _ (some ct) => some ct
  | _ => (headerValue r.headers "Content-Type").bind
      (fun vs => vs.head?.map parseContentType)

/-- External walk `pact_mock_server_ffi::bodies::process_object` /
`process_array` over the canonical value: the walk normalizes
matcher/generator markers, which are outside this core (spec scope), so
the value passes through unchanged and no rules are registered. -/
def walkJson (v : JsonVal) : JsonVal := v

/-- `OptionalBody::from(processed.to_string())`: the serialization of a
JSON value is never empty, so this is always a present body carrying no
content type of its own. -/
def optionalBodyFromJson (v : JsonVal) : OptionalBody :=
  .present (.ofJson v) Option.none

/-- Embedding of `PactNative::process_body_as_dict` (src/lib.rs lines
320-342): ensures the `body` rule category exists, converts the dict to
canonical JSON and walks it in both branches, and returns the declared
content type string when it is JSON, else the literal
`application/json`. -/
def process_body_as_dict (body : List (PyValue × PyValue)) (content_type : ContentType)
    (matching_rules : MatchingRules) (generators : Generators) :
    MatchingRules × Generators × Except PyErr (OptionalBody × Option String) :=
  let mr := addCategory matching_rules "body"
  if content_type.isJson then
    match pyobj_to_json (.dict body) with
    | .error e => (mr, generators, .error e)
    | .ok j => (mr, generators, .ok (optionalBodyFromJson (walkJson j), some content_type.value))
  else
    match pyobj_to_json (.dict body) with
    | .error e => (mr, generators, .error e)
    | .ok j => (mr, generators, .ok (optionalBodyFromJson (walkJson j), some "application/json"))

/-- Embedding of `PactNative::process_body_as_array` (src/lib.rs lines
344-365), same shape as the dict case over a list body. -/
def process_body_as_array (body : List PyValue) (content_type : ContentType)
    (matching_rules : MatchingRules) (generators : Generators) :
    MatchingRules × Generators × Except PyErr (OptionalBody × Option String) :=
  let mr := addCategory matching_rules "body"
  if content_type.isJson then
    match pyobj_to_json (.list body) with
    | .error e => (mr, generators, .error e)
    | .ok j => (mr, generators, .ok (optionalBodyFromJson (walkJson j), some content_type.value))
  else
    match pyobj_to_json (.list body) with
    | .error e => (mr, generators, .error e)
    | .ok j => (mr, generators, .ok (optionalBodyFromJson (walkJson j), some "application/json"))

/-- Conversion of the `given` params dict performed before the interaction
accessor runs (src/lib.rs lines 58-62): each key must cast to a string,
each value is converted to JSON, entries are collected into a hash map
(modelled as an association list in iteration order). -/
def convertParams : List (PyValue × PyValue) → Except PyErr (List (String × JsonVal))
  | [] => .ok []
  | (k, v) :: rest =>
    match k with
    | .str ks =>
      match pyobj_to_json v with
      | .error e => .error e
      | .ok j =>
        match convertParams rest with
        | .error e => .error e
        | .ok m => .ok ((ks, j) :: m)
    | kv => .error (.typeError ("expected a string key, got " ++ pyTypeName kv))

/-- Embedding of `PactNative::given` (src/lib.rs lines 57-73): converts
the params dict, then pushes a provider state onto the current
interaction through the accessor. -/
def given (s : BuilderState) (provider_state : String) (params : List (PyValue × PyValue)) :
    BuilderState × Option PyErr :=
  match convertParams params with
  | .error e => (s, some e)
  | .ok ps =>
    with_current_interaction s (fun i =>
      ({ i with providerStates := i.providerStates ++ [⟨provider_state, ps⟩] }, Option.none))

/-- Embedding of `PactNative::upon_receiving` (src/lib.rs lines
75-80). -/
def upon_receiving (s : BuilderState) (description : String) : BuilderState × Option PyErr :=
  with_current_interaction s (fun i => ({ i with description := description }, Option.none))

/-- Path block of `with_request`/`add_request_binary_file`: a string sets
the literal path, anything else is the unimplemented matcher branch and is
ignored. -/
def applyPathStage (path : PyValue) (i : Interaction) : Interaction :=
  match path with
  | .str p => { i with request := { i.request with path := p } }
  | _ => i

/-- Body block of `with_request` (src/lib.rs lines 130-151): dict and list
bodies go through the body processor using the request content type, a
string body is stored literally with the request content type, `None` is
skipped, and any other type is a `TypeError`. -/
def applyRequestBodyStage (body : PyValue) (i : Interaction) : Interaction × Option PyErr :=
  match body with
  | .dict kvs =>
    let ct := (requestContentType i.request).getD defaultContentType
    let r := process_body_as_dict kvs ct i.request.matchingRules i.request.generators
    let i := { i with request := { i.request with matchingRules := r.1, generators := r.2.1 } }
    match r.2.2 with
    | .error e => (i, some e)
    | .ok b =>
      let i := { i with request := { i.request with body := b.1 } }
      match b.2 with
      | some ctv => ({ i with request := { i.request with
          headers := addHeaderMap i.request.headers "Content-Type" [ctv] } }, Option.none)
      | Option.none => (i, Option.none)
  | .list xs =>
    let ct := (requestContentType i.request).getD defaultContentType
    let r := process_body_as_array xs ct i.request.matchingRules i.request.generators
    let i := { i with request := { i.request with matchingRules := r.1, generators := r.2.1 } }
    match r.2.2 with
    | .error e => (i, some e)
    | .ok b =>
      let i := { i with request := { i.request with body := b.1 } }
      match b.2 with
      | some ctv => ({ i with request := { i.request with
          headers := addHeaderMap i.request.headers "Content-Type" [ctv] } }, Option.none)
      | Option.none => (i, Option.none)
  | .str s =>
    ({ i with request := { i.request with
        body := .present (.ofString s) (requestContentType i.request) } }, Option.none)
  | .none => (i, Option.none)
  | w => (i, some (.typeError ("with_request: " ++ pyTypeName w ++ " is not an appropriate type for a body")))

/-- Callback of `PactNative::with_request` (src/lib.rs lines 82-155),
with the field mutations applied in source order: method, path, query,
headers, body, each later block skipped once an earlier one failed. -/
def with_request_callback (method : String) (path query headers body : PyValue)
    (i : Interaction) : Interaction × Option PyErr :=
  let i := { i with request := { i.request with method := method } }
  let i := applyPathStage path i
  let q := applyDictStage query i.request.query
    "with_request: Query parameters must be supplied as a Dict, got "
  let i := { i with request := { i.request with query := q.1 } }
  match q.2 with
  | some e => (i, some e)
  | Option.none =>
    let h := applyDictStage headers i.request.headers
      "with_request: Headers must be supplied as a Dict, got "
    let i := { i with request := { i.request with headers := h.1 } }
    match h.2 with
    | some e => (i, some e)
    | Option.none => applyRequestBodyStage body i

/-- Embedding of `PactNative::with_request`. -/
def with_request (s : BuilderState) (method : String) (path query headers body : PyValue) :
    BuilderState × Option PyErr :=
  with_current_interaction s (with_request_callback method path query headers body)

/-- Callback of `PactNative::add_request_binary_file` (src/lib.rs lines
157-230): method/path/query/headers as in `with_request`, then the file is
read; on success its bytes become the literal body, a content-type
matching rule for the supplied type is attached at `$` in the `body`
category, and a `Content-Type: application/octet-stream` header is added
when none is present; a failed read is a `TypeError` and leaves the
interaction as mutated so far. -/
def add_request_binary_file_callback (fileData : String → Option (List Nat))
    (content_type file_path method : String) (path query headers : PyValue)
    (i : Interaction) : Interaction × Option PyErr :=
  let i := { i with request := { i.request with method := method } }
  let i := applyPathStage path i
  let q := applyDictStage query i.request.query
    "with_request: Query parameters must be supplied as a Dict, got "
  let i := { i with request := { i.request with query := q.1 } }
  match q.2 with
  | some e => (i, some e)
  | Option.none =>
    let h := applyDictStage headers i.request.headers
      "with_request: Headers must be supplied as a Dict, got "
    let i := { i with request := { i.request with headers := h.1 } }
    match h.2 with
    | some e => (i, some e)
    | Option.none =>
      match fileData file_path with
      | some data =>
        let i := { i with request := { i.request with body := .present (.ofFile data) Option.none } }
        let i := { i with request := { i.request with
          matchingRules := addRule (addCategory i.request.matchingRules "body") "body" "$"
            (.contentType content_type) .and } }
        if hasHeader i.request.headers "Content-Type" then (i, Option.none)
        else ({ i with request := { i.request with
          headers := addHeaderMap i.request.headers "Content-Type" ["application/octet-stream"] } },
          Option.none)
      | Option.none =>
        (i, some (.typeError "add_request_binary_file: could not load binary file"))

/-- Embedding of `PactNative::add_request_binary_file`; the file system is
an explicit function from path to optional byte content. -/
def add_request_binary_file (fileData : String → Option (List Nat)) (s : BuilderState)
    (content_type file_path method : String) (path query headers : PyValue) :
    BuilderState × Option PyErr :=
  with_current_interaction s
    (add_request_binary_file_callback fileData content_type file_path method path query headers)

/-- `status.extract::<u16>(py)?`: Python ints in the unsigned 16-bit range
extract, bools extract as 0/1, anything else fails. -/
def extractU16 : PyValue → Except PyErr Nat
  | .bool b => .ok (if b then 1 else 0)
  | .int n => if 0 ≤ n ∧ n < 65536 then .ok n.toNat
      else .error (.overflowError "out of range integral type conversion attempted")
  | w => .error (.typeError ("an integer is required, got " ++ pyTypeName w))

/-- Body block of `will_respond_with` (src/lib.rs lines 255-276): like the
request body block, but note the source computes the content type from the
REQUEST for dict and list bodies while storing into the response. -/
def applyResponseBodyStage (body : PyValue) (i : Interaction) : Interaction × Option PyErr :=
  match body with
  | .dict kvs =>
    let ct := (requestContentType i.request).getD defaultContentType
    let r := process_body_as_dict kvs ct i.response.matchingRules i.response.generators
    let i := { i with response := { i.response with matchingRules := r.1, generators := r.2.1 } }
    match r.2.2 with
    | .error e => (i, some e)
    | .ok b =>
      let i := { i with response := { i.response with body := b.1 } }
      match b.2 with
      | some ctv => ({ i with response := { i.response with
          headers := addHeaderMap i.response.headers "Content-Type" [ctv] } }, Option.none)
      | Option.none => (i, Option.none)
  | .list xs =>
    let ct := (requestContentType i.request).getD defaultContentType
    let r := process_body_as_array xs ct i.response.matchingRules i.response.generators
    let i := { i with response := { i.response with matchingRules := r.1, generators := r.2.1 } }
    match r.2.2 with
    | .error e => (i, some e)
    | .ok b =>
      let i := { i with response := { i.response with body := b.1 } }
      match b.2 with
      | some ctv => ({ i with response := { i.response with
          headers := addHeaderMap i.response.headers "Content-Type" [ctv] } }, Option.none)
      | Option.none => (i, Option.none)
  | .str s =>
    ({ i with response := { i.response with
        body := .present (.ofString s) (responseContentType i.response) } }, Option.none)
  | .none => (i, Option.none)
  | w => (i, some (.typeError ("will_respond_with: " ++ pyTypeName w ++ " is not an appropriate type for a body")))

/-- Callback of `PactNative::will_respond_with` (src/lib.rs lines
233-283): status, headers, body in source order. -/
def will_respond_with_callback (status headers body : PyValue) (i : Interaction) :
    Interaction × Option PyErr :=
  match extractU16 status with
  | .error e => (i, some e)
  | .ok st =>
    let i := { i with response := { i.response with status := st } }
    let h := applyDictStage headers i.response.headers
      "with_request: Headers must be supplied as a Dict, got "
    let i := { i with response := { i.response with headers := h.1 } }
    match h.2 with
    | some e => (i, some e)
    | Option.none => applyResponseBodyStage body i

/-- Embedding of `PactNative::will_respond_with` (src/lib.rs lines
232-289): the response mutation runs through the accessor; only when it
succeeds does execution reach the statement that resets the cursor to
Idle — the `?` after the accessor call returns early on failure, leaving
the cursor where the accessor put it. -/
def will_respond_with (s : BuilderState) (status headers body : PyValue) :
    BuilderState × Option PyErr :=
  let r := with_current_interaction s (will_respond_with_callback status headers body)
  match r.2 with
  | some e => (r.1, some e)
  | Option.none => ({ r.1 with interaction := Option.none }, Option.none)

/-- One builder verb invocation, for quantifying over call sequences. -/
inductive Verb where
  | givenV (provider_state : String) (params : List (PyValue × PyValue))
  | uponReceiving (description : String)
  | withRequest (method : String) (path query headers body : PyValue)
  | addRequestBinaryFile (content_type file_path method : String) (path query headers : PyValue)
  | willRespondWith (status headers body : PyValue)

/-- Dispatch of one builder verb on the builder state. -/
def applyVerb (fileData : String → Option (List Nat)) : Verb → BuilderState → BuilderState × Option PyErr
  | .givenV ps params, s => given s ps params
  | .uponReceiving d, s => upon_receiving s d
  | .withRequest m p q h b, s => with_request s m p q h b
  | .addRequestBinaryFile ct fp m p q h, s => add_request_binary_file fileData s ct fp m p q h
  | .willRespondWith st h b, s => will_respond_with s st h b

/-- Process-wide mock-server registry (`ServerManager` behind the `MANAGER`
mutex): id to pact snapshot of each running instance; the HTTP serving
machinery is external.  Insertion replaces an existing binding for the
same id, as the underlying map does. -/
structure Registry where
  servers : List (String × RequestResponsePact)

/-- `ServerManager::start_mock_server` registration step: record the pact
snapshot under the fresh id (the bind/serve part is the external
engine). -/
def registryInsert (reg : Registry) (id : String) (pact : RequestResponsePact) : Registry :=
  if (reg.servers.map Prod.fst).contains id
  then ⟨reg.servers.map (fun e => if e.1 = id then (id, pact) else e)⟩
  else ⟨reg.servers ++ [(id, pact)]⟩

/-- `ServerManager::find_mock_server_by_id`: first (unique) binding for
the id. -/
def findById (reg : Registry) (id : String) : Option RequestResponsePact :=
  (reg.servers.find? (fun e => e.1 == id)).map Prod.snd

/-- Handle returned to the caller: reference by id plus bound port. -/
structure MockServerHandle where
  id : String
  port : Nat

/-- Combined state of one builder plus the process-wide registry. -/
structure SystemState where
  builder : BuilderState
  manager : Registry

/-- Embedding of `PactNative::start_mock_server` (src/lib.rs lines
291-301): reads the pact (`pact.clone()` hands the registry an
independent deep copy), registers it under a fresh id, and returns the
handle; the builder state is only read. -/
def start_mock_server (sys : SystemState) (freshId : String) (port : Nat) :
    SystemState × MockServerHandle :=
  ({ sys with manager := registryInsert sys.manager freshId sys.builder.pact },
   { id := freshId, port := port })

/-- Builder verbs act on the builder component only: they run inside
`PactNative` against its own `RefCell`s and never touch the registry. -/
def applySysVerb (fileData : String → Option (List Nat)) (v : Verb) (sys : SystemState) : SystemState :=
  { sys with builder := (applyVerb fileData v sys.builder).1 }

/-- A whole sequence of builder verbs on the combined state. -/
def applySysVerbs (fileData : String → Option (List Nat)) : List Verb → SystemState → SystemState
  | [], sys => sys
  | v :: vs, sys => applySysVerbs fileData vs (applySysVerb fileData v sys)

/-- Directory coercion of `MockServerHandle::write_pact_file` (src/lib.rs
lines 396-405): a non-empty string passes through, the empty string and
every non-string fall back to the process default (`None`). -/
def coercePactDir : PyValue → Option String
  | .str s => if s.isEmpty then Option.none else some s
  | _ => Option.none

/-- Overwrite coercion of `MockServerHandle::write_pact_file` (src/lib.rs
lines 407-411): a bool passes through, everything else becomes
`false`. -/
def coerceOverwrite : PyValue → Bool
  | .bool b => b
  | _ => false

/-- Embedding of `MockServerHandle::write_pact_file` (src/lib.rs lines
395-416): coerce both arguments silently, then look the server up and
delegate the disk write (external engine, passed as a function of the
coerced directory and overwrite flag). -/
def write_pact_file (writePact : Option String → Bool → Except String Unit)
    (reg : Registry) (id : String) (pact_dir overwrite : PyValue) : Except PyErr PyValue :=
  let dir := coercePactDir pact_dir
  let ow := coerceOverwrite overwrite
  match findById reg id with
  | some _ =>
    match writePact dir ow with
    | .ok _ => .ok .none
    | .error err => .error (.typeError ("Failed to write pact to file - " ++ err))
  | Option.none =>
    .error (.typeError ("Could not get the mock server to write the pact file: there is no mock server with id " ++ id))

/-- Word character of the scheme pattern.  The regex crate's `\w` is
Unicode-aware; the model covers the ASCII word class (letters, digits,
underscore), which the source strings in play stay within. -/
def isWordChar (c : Char) : Bool := c.isAlphanum || c == '_'

/-- Scanner for the anchored pattern: at least one word character already
seen (`seen` flag), then the literal `://`. -/
def schemeMatchAux : List Char → Bool → Bool
  | [], _ => false
  | c :: rest, seen =>
    if isWordChar c then schemeMatchAux rest true
    else
      seen && (match c, rest with
        | ':', '/' :: '/' :: _ => true
        | _, _ => false)

/-- `Regex::new(r"...").is_match(s)` for the source-classification
pattern `^\w+://` of src/verifier.rs line 48: the string starts with one or
more word characters followed by `://`. -/
def schemeMatch (s : String) : Bool := schemeMatchAux s.toList false

/-- Pact source variants constructed by the assembler
(`pact_verifier::PactSource`). -/
inductive PactSource where
  | url (s : String) (auth : Option String)
  | file (path : String)
deriving DecidableEq, Repr

/-- Loop body of the sources loop (src/verifier.rs lines 45-57): a string
is classified by the scheme pattern, a non-string is skipped (with a
printed warning). -/
def classifyPactEntry : PyValue → Option PactSource
  | .str s => some (if schemeMatch s then .url s Option.none else .file s)
  | _ => Option.none

/-- Absolute URL as read back from the external `url` crate (the fields
the assembler copies). -/
structure ParsedUrl where
  scheme : String
  host : Option String
  port : Option Nat
  path : String
deriving DecidableEq, Repr

/-- Provider descriptor (`pact_verifier::ProviderInfo`).  Defaults model
the collaborator's `ProviderInfo::default()`. -/
structure ProviderInfo where
  name : String := "provider"
  protocol : String := "http"
  host : String := "localhost"
  port : Option Nat := Option.none
  path : String := "/"
deriving DecidableEq, Repr

/-- Verification options; every advanced option of the source is commented
out, so only the collaborator default remains. -/
structure VerificationOptions where
  publish : Bool := false
deriving DecidableEq, Repr

/-- `FilterInfo`: the assembler always returns the no-filter variant. -/
inductive FilterInfo where
  | noFilter
deriving DecidableEq, Repr

/-- `kwargs.get_item(py, key)` on the options dict: first binding whose
key is the given string. -/
def getItem (kwargs : List (PyValue × PyValue)) (key : String) : Option PyValue :=
  (kwargs.find? (fun kv => match kv.1 with | .str s => s == key | _ => false)).map Prod.snd

/-- Embedding of `setup_provider_config` (src/verifier.rs lines 16-219).
The external `url` crate is passed in as `parseUrl` (returning the parse
error cause on failure).  A failed base URL parse aborts with an
`AttributeError` before the source list is looked at; on success the
provider descriptor copies scheme/host/port/path from the parsed URL with
`localhost` substituted for an absent host, then the `sources` entry of
the options bag, when it is a list, is classified entry by entry
(non-strings skipped), anything else yielding no sources; filter and
consumer list are always empty and options are the defaults. -/
def setup_provider_config (parseUrl : String → Except String ParsedUrl)
    (provider : String) (base_url : String) (kwargs : List (PyValue × PyValue)) :
    Except PyErr (ProviderInfo × List PactSource × VerificationOptions × FilterInfo × List String) :=
  match parseUrl base_url with
  | .error err => .error (.attributeError ("Failed to parse base_url: " ++ err))
  | .ok url =>
    let provider_info : ProviderInfo :=
      { name := provider
        protocol := url.scheme
        host := url.host.getD "localhost"
        port := url.port
        path := url.path }
    let pacts : List PactSource :=
      match getItem kwargs "sources" with
      | some pact_urls =>
        match pact_urls with
        | .list entries => entries.filterMap classifyPactEntry
        | _ => []
      | Option.none => []
    .ok (provider_info, pacts, {}, .noFilter, [])

/-- Cursor well-formedness: at most one interaction is open (the cursor is
a single optional index) and an open index points inside the pact's
interaction sequence. -/
def cursorInv (s : BuilderState) : Prop :=
  ∀ i, s.interaction = some i → i < s.pact.interactions.length

/-- Interaction the accessor hands to a verb's callback: the indexed one
when Building, a fresh default one when Idle. -/
def openInteraction (s : BuilderState) : Interaction :=
  match s.interaction with
  | some i => s.pact.interactions.getD i defaultInteraction
  | Option.none => defaultInteraction

/-- URL parser stub standing in for a successful `Url::parse` call in
concrete witnesses. -/
def okParser : String → Except String ParsedUrl :=
  fun _ => .ok { scheme := "http", host := some "localhost", port := some 8000, path := "/" }

/-- URL parser stub standing in for a failed `Url::parse` call in concrete
witnesses. -/
def failParser : String → Except String ParsedUrl :=
  fun _ => .error "relative URL without a base"

/-- File-system stub for concrete binary-file examples: a single PNG file
at `logo.png`. -/
def fsLogo : String → Option (List Nat) :=
  fun p => if p = "logo.png" then some [137, 80, 78, 71] else Option.none

/-- Entry-wise witness that a converted object came from a dict: each JSON
entry pairs the original string key with the converted value, and the
value converts back observationally equal. -/
inductive ConvRel : List (String × JsonVal) → List (PyValue × PyValue) → Prop where
  | nil : ConvRel [] []
  | cons {s : String} {j : JsonVal} {v : PyValue}
      {zs : List (String × JsonVal)} {kvs : List (PyValue × PyValue)} :
      pyobj_to_json v = .ok j → ObsEq (json_to_pyobj j) v → ConvRel zs kvs →
      ConvRel ((s, j) :: zs) ((PyValue.str s, v) :: kvs)

theorem keyStrings_cons_str (s : String) (v : PyValue) (rest : List (PyValue × PyValue)) :
    keyStrings ((PyValue.str s, v) :: rest) = s :: keyStrings rest := rfl

theorem jsonObjToPy_eq_map (l : List (String × JsonVal)) :
    jsonObjToPy l = l.map (fun kv => (PyValue.str kv.1, json_to_pyobj kv.2)) := by
  induction l with
  | nil => rfl
  | cons hd tl ih =>
    obtain ⟨k, v⟩ := hd
    simp [jsonObjToPy, ih]

theorem convRel_obsEqEntries {zs : List (String × JsonVal)} {kvs : List (PyValue × PyValue)}
    (h : ConvRel zs kvs) : ObsEqEntries (jsonObjToPy zs) kvs := by
  induction h with
  | nil => exact ObsEqEntries.nil
  | cons hok hobs _ ih => exact ObsEqEntries.cons rfl hobs ih

theorem mapInsert_perm (m : List (String × JsonVal)) (k : String) (v : JsonVal)
    (h : k ∉ m.map Prod.fst) : (mapInsert m k v).Perm ((k, v) :: m) := by
  induction m with
  | nil => simp [mapInsert]
  | cons hd tl ih =>
    obtain ⟨k', v'⟩ := hd
    simp only [List.map_cons, List.mem_cons] at h
    push_neg at h
    simp only [mapInsert]
    by_cases hlt : strLt k k'
    · simp [hlt]
    · simp only [hlt, if_false]
      have hne : ¬ k = k' := h.1
      simp only [hne, if_false]
      exact ((ih h.2).cons (k', v')).trans (List.Perm.swap (k, v) (k', v') tl)

theorem roundtrip_list (n : Nat)
    (ih : ∀ v : PyValue, sizeOf v ≤ n → convertible v = true →
      ∃ j, pyobj_to_json v = .ok j ∧ ObsEq (json_to_pyobj j) v) :
    ∀ xs : List PyValue, sizeOf xs ≤ n → convertibleList xs = true →
      ∃ js, pyListToJson xs = .ok js ∧ ObsEqList (jsonListToPy js) xs := by
  intro xs
  induction xs with
  | nil => intro _ _; exact ⟨[], rfl, ObsEqList.nil⟩
  | cons x rest ihl =>
    intro hsz hc
    simp only [convertibleList, Bool.and_eq_true] at hc
    simp only [List.cons.sizeOf_spec] at hsz
    obtain ⟨j, hj, hobs⟩ := ih x (by omega) hc.1
    obtain ⟨js, hjs, hobsl⟩ := ihl (by omega) hc.2
    refine ⟨j :: js, ?_, ?_⟩
    · simp [pyListToJson, hj, hjs]
    · exact ObsEqList.cons hobs hobsl

theorem roundtrip_entries (n : Nat)
    (ih : ∀ v : PyValue, sizeOf v ≤ n → convertible v = true →
      ∃ j, pyobj_to_json v = .ok j ∧ ObsEq (json_to_pyobj j) v) :
    ∀ (kvs : List (PyValue × PyValue)) (acc : List (String × JsonVal)),
      sizeOf kvs ≤ n → convertibleEntries kvs = true → (keyStrings kvs).Nodup →
      (∀ t ∈ keyStrings kvs, t ∉ acc.map Prod.fst) →
      ∃ m zs, pyDictToJson kvs acc = .ok m ∧ m.Perm (acc ++ zs) ∧ ConvRel zs kvs := by
  intro kvs
  induction kvs with
  | nil => intro acc _ _ _ _; exact ⟨acc, [], rfl, by simp, ConvRel.nil⟩
  | cons kv rest ihk =>
    obtain ⟨k, v⟩ := kv
    intro acc hsz hc hnd hdisj
    cases k with
    | str s =>
      simp only [convertibleEntries, Bool.and_eq_true] at hc
      obtain ⟨⟨-, hcv⟩, hcrest⟩ := hc
      simp only [List.cons.sizeOf_spec, Prod.mk.sizeOf_spec] at hsz
      obtain ⟨j, hj, hobs⟩ := ih v (by omega) hcv
      rw [keyStrings_cons_str] at hnd hdisj
      have hnd' := List.nodup_cons.mp hnd
      have hsacc : s ∉ acc.map Prod.fst := hdisj s (List.mem_cons_self s _)
      have haccperm : ((mapInsert acc s j).map Prod.fst).Perm (s :: acc.map Prod.fst) :=
        (mapInsert_perm acc s j hsacc).map Prod.fst
      have hdisj' : ∀ t ∈ keyStrings rest, t ∉ (mapInsert acc s j).map Prod.fst := by
        intro t ht hmem
        rcases List.mem_cons.mp ((haccperm.mem_iff).mp hmem) with h | h
        · exact hnd'.1 (h ▸ ht)
        · exact hdisj t (List.mem_cons_of_mem s ht) h
      obtain ⟨m, zs, hm, hperm, hcr⟩ := ihk (mapInsert acc s j) (by omega) hcrest hnd'.2 hdisj'
      refine ⟨m, (s, j) :: zs, ?_, ?_, ConvRel.cons hj hobs hcr⟩
      · simp [pyDictToJson, hj, hm]
      · exact hperm.trans
          (((mapInsert_perm acc s j hsacc).append_right zs).trans List.perm_middle.symm)
    | none => simp [convertibleEntries] at hc
    | bool b => simp [convertibleEntries] at hc
    | int z => simp [convertibleEntries] at hc
    | float q => simp [convertibleEntries] at hc
    | list xs => simp [convertibleEntries] at hc
    | tuple xs => simp [convertibleEntries] at hc
    | dict d => simp [convertibleEntries] at hc
    | other t => simp [convertibleEntries] at hc

theorem roundtrip_aux : ∀ (n : Nat) (v : PyValue), sizeOf v ≤ n → convertible v = true →
    ∃ j, pyobj_to_json v = .ok j ∧ ObsEq (json_to_pyobj j) v := by
  intro n
  induction n with
  | zero =>
    intro v hsz _
    exfalso
    have h1 : 0 < sizeOf v := by cases v <;> simp_arith
    omega
  | succ n ihn =>
    intro v hsz hc
    cases v with
    | none => simp [convertible] at hc
    | bool b => exact ⟨.bool b, rfl, ObsEq.bool b⟩
    | int z =>
      simp only [convertible, decide_eq_true_eq] at hc
      refine ⟨.num (numFromI64 z), by simp [pyobj_to_json, hc], ?_⟩
      by_cases hz : 0 ≤ z
      · have hred : json_to_pyobj (.num (numFromI64 z)) = .int z := by
          simp [json_to_pyobj, numFromI64, hz, Int.toNat_of_nonneg hz]
        rw [hred]; exact ObsEq.int z
      · have hred : json_to_pyobj (.num (numFromI64 z)) = .int z := by
          simp [json_to_pyobj, numFromI64, hz]
        rw [hred]; exact ObsEq.int z
    | float q => exact ⟨.num (numFromF64 q), rfl, ObsEq.float q⟩
    | str s => exact ⟨.str s, rfl, ObsEq.str s⟩
    | list xs =>
      simp only [convertible] at hc
      simp only [PyValue.list.sizeOf_spec] at hsz
      obtain ⟨js, hjs, ho⟩ := roundtrip_list n ihn xs (by omega) hc
      refine ⟨.arr js, by simp [pyobj_to_json, hjs], ?_⟩
      exact ObsEq.list ho
    | tuple xs => simp [convertible] at hc
    | dict kvs =>
      simp only [convertible, Bool.and_eq_true, decide_eq_true_eq] at hc
      simp only [PyValue.dict.sizeOf_spec] at hsz
      obtain ⟨m, zs, hm, hperm, hcr⟩ :=
        roundtrip_entries n ihn kvs [] (by omega) hc.1 hc.2 (by simp)
      refine ⟨.obj m, by simp [pyobj_to_json, hm], ?_⟩
      have hmzs : m.Perm zs := by simpa using hperm
      have hperm' : (jsonObjToPy m).Perm (jsonObjToPy zs) := by
        rw [jsonObjToPy_eq_map, jsonObjToPy_eq_map]
        exact hmzs.map _
      exact ObsEq.dict hperm' (convRel_obsEqEntries hcr)
    | other t => simp [convertible] at hc

/-- Claim C2, counterexample: the taxonomy of the claim includes null, but
`pyobj_to_json` has no branch for Python `None`, which falls through to the
conversion error, so `from_canonical(to_canonical(null))` does not exist
and the round trip fails at `v = null`. -/
theorem c2_roundtrip_counterexample :
    pyobj_to_json PyValue.none =
      .error (.typeError "Could not convert Python object to a JSON form - NoneType") := rfl

/-- Claim C2, amended: for every DynamicValue in the taxonomy without
null — booleans, signed-64-bit integers, (finite) floats, strings,
sequences of such, and mappings with distinct string keys — the conversion
to canonical JSON succeeds and converting back yields an observationally
equal value (order-preserving for sequences, key-set-preserving for
mappings). -/
theorem c2_roundtrip (v : PyValue) (h : convertible v = true) :
    ∃ j, pyobj_to_json v = .ok j ∧ ObsEq (json_to_pyobj j) v :=
  roundtrip_aux (sizeOf v) v (Nat.le_refl _) h

/-- Claim C2, witness: the round trip evaluated on a concrete nested
mapping. -/
theorem c2_roundtrip_witness :
    convertible (PyValue.dict [(.str "b", .list [.int 1, .bool true]), (.str "a", .str "x")]) = true ∧
    ∃ j, pyobj_to_json (PyValue.dict [(.str "b", .list [.int 1, .bool true]), (.str "a", .str "x")]) = .ok j ∧
      ObsEq (json_to_pyobj j) (PyValue.dict [(.str "b", .list [.int 1, .bool true]), (.str "a", .str "x")]) :=
  ⟨by decide, c2_roundtrip _ (by decide)⟩

/-- Claim C9: `json_to_pyobj` is total — every canonical JSON value,
arrays and objects included, maps to a host value — and a numeric node
that is representable as none of unsigned 64-bit, signed 64-bit, or
64-bit float becomes the float `0.0` instead of an error. -/
theorem c9_json_to_pyobj_total :
    (∀ v : JsonVal, ∃ p : PyValue, json_to_pyobj v = p) ∧
    (∀ n : JsonNum, n.asU64 = Option.none → n.asI64 = Option.none → n.asF64 = Option.none →
      json_to_pyobj (.num n) = .float 0) := by
  constructor
  · intro v; exact ⟨_, rfl⟩
  · intro n h1 h2 h3
    simp [json_to_pyobj, h1, h2, h3]

/-- Claim C9, witness: the fallback number evaluated concretely. -/
theorem c9_json_to_pyobj_total_witness :
    json_to_pyobj (.num ⟨Option.none, Option.none, Option.none⟩) = .float 0 :=
  c9_json_to_pyobj_total.2 ⟨Option.none, Option.none, Option.none⟩ rfl rfl rfl

/-- Claim C3, counterexample: with declared content type `text/plain`
(not JSON) the body processor still returns the inferred literal
`application/json`, not the declared type, so the declared non-JSON type
does not take precedence in the processor's result. -/
theorem c3_counterexample :
    (process_body_as_dict [(.str "ok", .bool true)] ⟨"text/plain", false⟩
        emptyMatchingRules emptyGenerators).2.2 =
      .ok (optionalBodyFromJson (.obj [("ok", .bool true)]), some "application/json") ∧
    (some "application/json" : Option String) ≠ some "text/plain" := ⟨rfl, by decide⟩

/-- Claim C3, amended: for structured bodies the canonical conversion and
walk happen for every declared content type, and the inferred content
type returned is the declared type when that type is JSON and the literal
`application/json` otherwise (the declared non-JSON type is not
propagated); conversion errors pass through unchanged and the `body` rule
category is always created. -/
theorem c3_body_processor (kvs : List (PyValue × PyValue)) (xs : List PyValue)
    (ct : ContentType) (mr : MatchingRules) (g : Generators) :
    (∀ j, pyobj_to_json (.dict kvs) = .ok j →
      (process_body_as_dict kvs ct mr g).2.2 =
        .ok (optionalBodyFromJson (walkJson j),
             some (if ct.isJson then ct.value else "application/json"))) ∧
    (∀ e, pyobj_to_json (.dict kvs) = .error e →
      (process_body_as_dict kvs ct mr g).2.2 = .error e) ∧
    (∀ j, pyobj_to_json (.list xs) = .ok j →
      (process_body_as_array xs ct mr g).2.2 =
        .ok (optionalBodyFromJson (walkJson j),
             some (if ct.isJson then ct.value else "application/json"))) ∧
    (∀ e, pyobj_to_json (.list xs) = .error e →
      (process_body_as_array xs ct mr g).2.2 = .error e) ∧
    (process_body_as_dict kvs ct mr g).1 = addCategory mr "body" ∧
    (process_body_as_array xs ct mr g).1 = addCategory mr "body" := by
  refine ⟨?_, ?_, ?_, ?_, ?_, ?_⟩
  · intro j hj
    by_cases hct : ct.isJson <;> simp [process_body_as_dict, hj, hct]
  · intro e he
    by_cases hct : ct.isJson <;> simp [process_body_as_dict, he, hct]
  · intro j hj
    by_cases hct : ct.isJson <;> simp [process_body_as_array, hj, hct]
  · intro e he
    by_cases hct : ct.isJson <;> simp [process_body_as_array, he, hct]
  · by_cases hct : ct.isJson <;>
      cases hpj : pyobj_to_json (.dict kvs) <;> simp [process_body_as_dict, hct, hpj]
  · by_cases hct : ct.isJson <;>
      cases hpj : pyobj_to_json (.list xs) <;> simp [process_body_as_array, hct, hpj]

/-- Claim C3, witness: the dict clause evaluated at a concrete non-JSON
declared content type. -/
theorem c3_body_processor_witness :
    (process_body_as_dict [(.str "a", .int 5)] ⟨"application/xml", false⟩
        emptyMatchingRules emptyGenerators).2.2 =
      .ok (optionalBodyFromJson (walkJson (.obj [("a", .num (numFromI64 5))])),
           some "application/json") :=
  (c3_body_processor [(.str "a", .int 5)] [] ⟨"application/xml", false⟩
    emptyMatchingRules emptyGenerators).1 _ rfl


/-- Claim C7: entries of `options_bag` key `sources` are classified as URL
sources exactly when they match the scheme pattern, non-string entries are
skipped without error, and an absent or non-list `sources` value yields an
empty source list; the two scheme examples classify as stated. -/
theorem c7_sources_classification
    (parseUrl : String → Except String ParsedUrl) (provider base_url : String)
    (kwargs : List (PyValue × PyValue)) (u : ParsedUrl)
    (hu : parseUrl base_url = .ok u) :
    (∀ entries, getItem kwargs "sources" = some (.list entries) →
      ∃ pi opts, setup_provider_config parseUrl provider base_url kwargs =
        .ok (pi, entries.filterMap classifyPactEntry, opts, .noFilter, [])) ∧
    (getItem kwargs "sources" = Option.none →
      ∃ pi opts, setup_provider_config parseUrl provider base_url kwargs =
        .ok (pi, [], opts, .noFilter, [])) ∧
    (∀ w, getItem kwargs "sources" = some w → (∀ entries, w ≠ .list entries) →
      ∃ pi opts, setup_provider_config parseUrl provider base_url kwargs =
        .ok (pi, [], opts, .noFilter, [])) ∧
    (∀ s, classifyPactEntry (.str s) =
      some (if schemeMatch s then .url s Option.none else .file s)) ∧
    (∀ w, (∀ s, w ≠ PyValue.str s) → classifyPactEntry w = Option.none) ∧
    schemeMatch "https://broker.example/pacts/1" = true ∧
    schemeMatch "./pacts/consumer-provider.json" = false := by
  refine ⟨?_, ?_, ?_, ?_, ?_, by decide, by decide⟩
  · intro entries hs
    exact ⟨{ name := provider, protocol := u.scheme, host := u.host.getD "localhost",
             port := u.port, path := u.path }, {},
           by simp [setup_provider_config, hu, hs]⟩
  · intro hs
    exact ⟨{ name := provider, protocol := u.scheme, host := u.host.getD "localhost",
             port := u.port, path := u.path }, {},
           by simp [setup_provider_config, hu, hs]⟩
  · intro w hs hwl
    refine ⟨{ name := provider, protocol := u.scheme, host := u.host.getD "localhost",
              port := u.port, path := u.path }, {}, ?_⟩
    cases w with
    | list entries => exact absurd rfl (hwl entries)
    | none => simp [setup_provider_config, hu, hs]
    | bool b => simp [setup_provider_config, hu, hs]
    | int n => simp [setup_provider_config, hu, hs]
    | float q => simp [setup_provider_config, hu, hs]
    | str s => simp [setup_provider_config, hu, hs]
    | tuple xs => simp [setup_provider_config, hu, hs]
    | dict kvs => simp [setup_provider_config, hu, hs]
    | other t => simp [setup_provider_config, hu, hs]
  · intro s; rfl
  · intro w hw
    cases w with
    | str s => exact absurd rfl (hw s)
    | none => rfl
    | bool b => rfl
    | int n => rfl
    | float q => rfl
    | list xs => rfl
    | tuple xs => rfl
    | dict kvs => rfl
    | other t => rfl

/-- Claim C7, witness: a bag whose sources hold a broker URL, a relative
file path and a skipped integer. -/
theorem c7_sources_classification_witness :
    ∃ pi opts, setup_provider_config okParser "prov" "http://localhost:8000"
        [(.str "sources", .list [.str "https://broker.example/pacts/1",
                                 .str "./pacts/consumer-provider.json", .int 3])] =
      .ok (pi, [PactSource.url "https://broker.example/pacts/1" Option.none,
                PactSource.file "./pacts/consumer-provider.json"], opts, .noFilter, []) :=
  (c7_sources_classification okParser "prov" "http://localhost:8000"
    [(.str "sources", .list [.str "https://broker.example/pacts/1",
                             .str "./pacts/consumer-provider.json", .int 3])]
    { scheme := "http", host := some "localhost", port := some 8000, path := "/" } rfl).1 _ rfl

/-- Claim C8: a base URL the parser rejects aborts the assembler with an
`AttributeError` before any source processing and yields no provider
descriptor, while a parsed base URL populates the descriptor verbatim
with `localhost` substituted for an absent host. -/
theorem c8_base_url_validation
    (parseUrl : String → Except String ParsedUrl) (provider base_url : String)
    (kwargs : List (PyValue × PyValue)) :
    (∀ err, parseUrl base_url = .error err →
      setup_provider_config parseUrl provider base_url kwargs =
        .error (.attributeError ("Failed to parse base_url: " ++ err))) ∧
    (∀ u, parseUrl base_url = .ok u →
      ∃ srcs opts, setup_provider_config parseUrl provider base_url kwargs =
        .ok ({ name := provider, protocol := u.scheme, host := u.host.getD "localhost",
               port := u.port, path := u.path }, srcs, opts, .noFilter, [])) := by
  constructor
  · intro err herr
    simp [setup_provider_config, herr]
  · intro u hu
    refine ⟨(match getItem kwargs "sources" with
             | some pact_urls =>
               match pact_urls with
               | .list entries => entries.filterMap classifyPactEntry
               | _ => []
             | Option.none => []), {}, ?_⟩
    simp [setup_provider_config, hu]

/-- Claim C8, witness: both branches evaluated concretely — the string
`not a url` rejected by the parser aborts, and a parsed URL with a host
fills the descriptor. -/
theorem c8_base_url_validation_witness :
    (setup_provider_config failParser "p" "not a url" [] =
      .error (.attributeError "Failed to parse base_url: relative URL without a base")) ∧
    (∃ srcs opts, setup_provider_config okParser "p" "http://localhost:8000" [] =
      .ok ({ name := "p", protocol := "http", host := "localhost",
             port := some 8000, path := "/" }, srcs, opts, .noFilter, [])) :=
  ⟨(c8_base_url_validation failParser "p" "not a url" []).1 "relative URL without a base" rfl,
   (c8_base_url_validation okParser "p" "http://localhost:8000" []).2
     { scheme := "http", host := some "localhost", port := some 8000, path := "/" } rfl⟩

/-- Claim C10: `write_pact_file` coerces a non-string or empty `pact_dir`
to the process default and a non-bool `overwrite` to `false`, both
silently — the call result depends on the arguments only through the two
coercions. -/
theorem c10_write_pact_file_coercion
    (writePact : Option String → Bool → Except String Unit) (reg : Registry) (id : String)
    (pact_dir overwrite : PyValue) :
    (coercePactDir pact_dir = Option.none ∨
      ∃ s, pact_dir = .str s ∧ ¬ s.isEmpty ∧ coercePactDir pact_dir = some s) ∧
    (coerceOverwrite overwrite = false ∨
      ∃ b, overwrite = .bool b ∧ coerceOverwrite overwrite = b) ∧
    (∀ pd2 ow2 : PyValue, coercePactDir pd2 = coercePactDir pact_dir →
      coerceOverwrite ow2 = coerceOverwrite overwrite →
      write_pact_file writePact reg id pd2 ow2 =
        write_pact_file writePact reg id pact_dir overwrite) := by
  refine ⟨?_, ?_, ?_⟩
  · cases pact_dir with
    | str s =>
      by_cases he : s.isEmpty
      · left; simp [coercePactDir, he]
      · right; exact ⟨s, rfl, he, by simp [coercePactDir, he]⟩
    | none => left; rfl
    | bool b => left; rfl
    | int n => left; rfl
    | float q => left; rfl
    | list xs => left; rfl
    | tuple xs => left; rfl
    | dict kvs => left; rfl
    | other t => left; rfl
  · cases overwrite with
    | bool b => right; exact ⟨b, rfl, rfl⟩
    | none => left; rfl
    | int n => left; rfl
    | float q => left; rfl
    | str s => left; rfl
    | list xs => left; rfl
    | tuple xs => left; rfl
    | dict kvs => left; rfl
    | other t => left; rfl
  · intro pd2 ow2 h1 h2
    simp [write_pact_file, h1, h2]

/-- Claim C10, witness: a non-string directory with a non-bool overwrite
behaves exactly like the default directory with overwrite false. -/
theorem c10_write_pact_file_coercion_witness :
    write_pact_file (fun _ _ => .ok ()) ⟨[]⟩ "a" (.int 3) (.list []) =
      write_pact_file (fun _ _ => .ok ()) ⟨[]⟩ "a" PyValue.none (.bool false) :=
  (c10_write_pact_file_coercion (fun _ _ => .ok ()) ⟨[]⟩ "a"
    PyValue.none (.bool false)).2.2 (.int 3) (.list []) rfl rfl

theorem find_none_of_not_contains (l : List (String × RequestResponsePact)) (id : String)
    (h : (l.map Prod.fst).contains id = false) :
    l.find? (fun e => e.1 == id) = Option.none := by
  induction l with
  | nil => rfl
  | cons hd tl ih =>
    simp only [List.map_cons, List.contains_cons, Bool.or_eq_false_iff] at h
    have hne : ¬ hd.1 = id := by
      intro hcontra
      simp [hcontra] at h
    simp [List.find?_cons, hne, ih h.2]

theorem find_replace_self (l : List (String × RequestResponsePact)) (id : String)
    (p : RequestResponsePact) (h : (l.map Prod.fst).contains id = true) :
    (l.map (fun e => if e.1 = id then (id, p) else e)).find? (fun e => e.1 == id) =
      some (id, p) := by
  induction l with
  | nil => simp at h
  | cons hd tl ih =>
    by_cases hhd : hd.1 = id
    · simp [List.find?_cons, hhd]
    · have h' : (tl.map Prod.fst).contains id = true := by
        simp only [List.map_cons, List.contains_cons] at h
        rcases Bool.or_eq_true_iff.mp h with h1 | h1
        · have h2 : id = hd.1 := by simpa using h1
          exact absurd h2.symm hhd
        · exact h1
      have hbeq : (hd.1 == id) = false := by simpa using hhd
      simpa [List.map_cons, List.find?_cons, hhd, hbeq] using ih h'

theorem findById_registryInsert (reg : Registry) (id : String) (p : RequestResponsePact) :
    findById (registryInsert reg id p) id = some p := by
  unfold findById registryInsert
  by_cases h : (reg.servers.map Prod.fst).contains id
  · simp only [h, if_true]
    rw [find_replace_self reg.servers id p h]
    rfl
  · simp only [h, Bool.false_eq_true, if_false]
    have hnone := find_none_of_not_contains reg.servers id (by simpa using h)
    rw [List.find?_append, hnone]
    simp [List.find?_cons]

theorem applySysVerbs_manager (fileData : String → Option (List Nat)) (verbs : List Verb)
    (sys : SystemState) : (applySysVerbs fileData verbs sys).manager = sys.manager := by
  induction verbs generalizing sys with
  | nil => rfl
  | cons v vs ih => simp [applySysVerbs, applySysVerb, ih]

/-- Claim C4: `start_mock_server` leaves the builder state untouched and
hands the registry an independent snapshot of the pact: after any sequence
of later builder verbs, the pact the registry holds for the returned
handle is still the pact as it was when the server started. -/
theorem c4_snapshot_isolation (fileData : String → Option (List Nat)) (sys : SystemState)
    (freshId : String) (port : Nat) (verbs : List Verb) :
    (start_mock_server sys freshId port).1.builder = sys.builder ∧
    (start_mock_server sys freshId port).2.id = freshId ∧
    findById (applySysVerbs fileData verbs (start_mock_server sys freshId port).1).manager
        freshId = some sys.builder.pact := by
  refine ⟨rfl, rfl, ?_⟩
  rw [applySysVerbs_manager]
  exact findById_registryInsert sys.manager freshId sys.builder.pact


theorem with_current_interaction_building (s : BuilderState) (i : Nat)
    (cb : Interaction → Interaction × Option PyErr) (hs : s.interaction = some i) :
    with_current_interaction s cb =
      ({ s with
          pact := { s.pact with
                      interactions := s.pact.interactions.set i
                        (cb (s.pact.interactions.getD i defaultInteraction)).1 } },
       (cb (s.pact.interactions.getD i defaultInteraction)).2) := by
  simp [with_current_interaction, hs]

theorem with_current_interaction_idle (s : BuilderState)
    (cb : Interaction → Interaction × Option PyErr) (hs : s.interaction = Option.none) :
    with_current_interaction s cb =
      ({ pact := { s.pact with interactions := s.pact.interactions ++ [(cb defaultInteraction).1] }
         interaction := some s.pact.interactions.length },
       (cb defaultInteraction).2) := by
  simp [with_current_interaction, hs]

theorem with_current_interaction_not_idle (s : BuilderState)
    (cb : Interaction → Interaction × Option PyErr) :
    (with_current_interaction s cb).1.interaction ≠ Option.none := by
  cases hs : s.interaction with
  | some k =>
    rw [with_current_interaction_building s k cb hs]
    intro hcontra
    have : s.interaction = Option.none := hcontra
    rw [hs] at this
    exact Option.noConfusion this
  | none =>
    rw [with_current_interaction_idle s cb hs]
    intro hcontra
    exact Option.noConfusion hcontra

theorem with_current_interaction_cursorInv (s : BuilderState)
    (cb : Interaction → Interaction × Option PyErr) (h : cursorInv s) :
    cursorInv (with_current_interaction s cb).1 := by
  cases hs : s.interaction with
  | some k =>
    intro i hi
    rw [with_current_interaction_building s k cb hs] at hi ⊢
    have hi' : s.interaction = some i := hi
    rw [hs] at hi'
    have hk := h k hs
    have hki : k = i := Option.some.inj hi'
    subst hki
    simpa [List.length_set] using hk
  | none =>
    intro i hi
    rw [with_current_interaction_idle s cb hs] at hi ⊢
    have hi' : some s.pact.interactions.length = some i := hi
    have hlen := Option.some.inj hi'
    simp only [List.length_append, List.length_cons, List.length_nil, ← hlen]
    omega

theorem applyVerb_cursorInv (fileData : String → Option (List Nat)) (v : Verb)
    (s : BuilderState) (h : cursorInv s) : cursorInv (applyVerb fileData v s).1 := by
  cases v with
  | givenV name params =>
    simp only [applyVerb, given]
    cases hcp : convertParams params with
    | error e => exact h
    | ok ps => exact with_current_interaction_cursorInv s _ h
  | uponReceiving d => exact with_current_interaction_cursorInv s _ h
  | withRequest m pa q hh b => exact with_current_interaction_cursorInv s _ h
  | addRequestBinaryFile ct fp m pa q hh => exact with_current_interaction_cursorInv s _ h
  | willRespondWith st hh b =>
    simp only [applyVerb, will_respond_with]
    cases he : (with_current_interaction s (will_respond_with_callback st hh b)).2 with
    | some e =>
      simp only [he]
      exact with_current_interaction_cursorInv s _ h
    | none =>
      simp only [he]
      intro i hi
      exact Option.noConfusion hi

theorem applyVerb_idle (fileData : String → Option (List Nat)) (v : Verb)
    (p : RequestResponsePact) :
    ((∃ ni, (applyVerb fileData v ⟨p, Option.none⟩).1.pact.interactions = p.interactions ++ [ni]) ∧
     ((applyVerb fileData v ⟨p, Option.none⟩).1.interaction = some p.interactions.length ∨
      ((applyVerb fileData v ⟨p, Option.none⟩).2 = Option.none ∧
       (applyVerb fileData v ⟨p, Option.none⟩).1.interaction = Option.none))) ∨
    ((applyVerb fileData v ⟨p, Option.none⟩).2 ≠ Option.none ∧
     (applyVerb fileData v ⟨p, Option.none⟩).1 = ⟨p, Option.none⟩) := by
  cases v with
  | givenV name params =>
    cases hcp : convertParams params with
    | error e =>
      right
      refine ⟨?_, ?_⟩ <;> simp [applyVerb, given, hcp]
    | ok ps =>
      left
      refine ⟨⟨{ defaultInteraction with
                  providerStates := defaultInteraction.providerStates ++ [⟨name, ps⟩] }, ?_⟩, ?_⟩
      · simp [applyVerb, given, hcp, with_current_interaction]
      · left; simp [applyVerb, given, hcp, with_current_interaction]
  | uponReceiving d =>
    left
    refine ⟨⟨{ defaultInteraction with description := d }, ?_⟩, ?_⟩
    · simp [applyVerb, upon_receiving, with_current_interaction]
    · left; simp [applyVerb, upon_receiving, with_current_interaction]
  | withRequest m pa q hh b =>
    left
    refine ⟨⟨(with_request_callback m pa q hh b defaultInteraction).1, ?_⟩, ?_⟩
    · simp [applyVerb, with_request, with_current_interaction]
    · left; simp [applyVerb, with_request, with_current_interaction]
  | addRequestBinaryFile ct fp m pa q hh =>
    left
    refine ⟨⟨(add_request_binary_file_callback fileData ct fp m pa q hh defaultInteraction).1, ?_⟩, ?_⟩
    · simp [applyVerb, add_request_binary_file, with_current_interaction]
    · left; simp [applyVerb, add_request_binary_file, with_current_interaction]
  | willRespondWith st hh b =>
    left
    cases he : (will_respond_with_callback st hh b defaultInteraction).2 with
    | some e =>
      refine ⟨⟨(will_respond_with_callback st hh b defaultInteraction).1, ?_⟩, ?_⟩
      · simp [applyVerb, will_respond_with, with_current_interaction, he]
      · left; simp [applyVerb, will_respond_with, with_current_interaction, he]
    | none =>
      refine ⟨⟨(will_respond_with_callback st hh b defaultInteraction).1, ?_⟩, ?_⟩
      · simp [applyVerb, will_respond_with, with_current_interaction, he]
      · right
        refine ⟨?_, ?_⟩ <;> simp [applyVerb, will_respond_with, with_current_interaction, he]

/-- Claim C1 (amended): at most one interaction is open after any verb (the
cursor stays a single in-range optional index); a `will_respond_with` call
that SUCCEEDS transitions the builder back to Idle, but a failing one
leaves an interaction open (the unconditional-transition part of the claim
is false, see the counterexample); and a verb issued while Idle either
appends exactly one new interaction after all existing ones — Building on
its index unless the verb was a succeeding `will_respond_with` — or fails
during argument conversion before the accessor runs and leaves the builder
unchanged. -/
theorem c1_cursor_discipline (fileData : String → Option (List Nat)) (s : BuilderState)
    (v : Verb) (p : RequestResponsePact) (status headers body : PyValue) :
    (cursorInv s → cursorInv (applyVerb fileData v s).1) ∧
    ((will_respond_with s status headers body).2 = Option.none →
      (will_respond_with s status headers body).1.interaction = Option.none) ∧
    ((will_respond_with s status headers body).2 ≠ Option.none →
      (will_respond_with s status headers body).1.interaction ≠ Option.none) ∧
    (((∃ ni, (applyVerb fileData v ⟨p, Option.none⟩).1.pact.interactions = p.interactions ++ [ni]) ∧
      ((applyVerb fileData v ⟨p, Option.none⟩).1.interaction = some p.interactions.length ∨
       ((applyVerb fileData v ⟨p, Option.none⟩).2 = Option.none ∧
        (applyVerb fileData v ⟨p, Option.none⟩).1.interaction = Option.none))) ∨
     ((applyVerb fileData v ⟨p, Option.none⟩).2 ≠ Option.none ∧
      (applyVerb fileData v ⟨p, Option.none⟩).1 = ⟨p, Option.none⟩)) := by
  refine ⟨fun h => applyVerb_cursorInv fileData v s h, ?_, ?_, applyVerb_idle fileData v p⟩
  · simp only [will_respond_with]
    cases he : (with_current_interaction s (will_respond_with_callback status headers body)).2 with
    | some e => simp [he]
    | none => simp [he]
  · simp only [will_respond_with]
    cases he : (with_current_interaction s (will_respond_with_callback status headers body)).2 with
    | some e =>
      intro _
      simpa [he] using with_current_interaction_not_idle s (will_respond_with_callback status headers body)
    | none =>
      intro hne
      simp [he] at hne

/-- Claim C1, counterexample: a `will_respond_with` whose headers argument
is an integer fails, and the builder is left Building on the freshly
opened interaction instead of transitioning back to Idle — the transition
is not unconditional. -/
theorem c1_counterexample :
    (will_respond_with (newPactNative "C" "P" "1.0.0") (.int 200) (.int 7) .none).1.interaction
      = some 0 ∧
    (will_respond_with (newPactNative "C" "P" "1.0.0") (.int 200) (.int 7) .none).2 =
      some (.typeError "with_request: Headers must be supplied as a Dict, got int") ∧
    (some 0 : Option Nat) ≠ Option.none := ⟨rfl, rfl, by decide⟩

/-- Claim C1, witness: a succeeding `will_respond_with` on a fresh builder
does close the interaction. -/
theorem c1_cursor_discipline_witness :
    (will_respond_with (newPactNative "C" "P" "1.0.0") (.int 200) .none .none).1.interaction
      = Option.none :=
  (c1_cursor_discipline (fun _ => Option.none) (newPactNative "C" "P" "1.0.0")
    (.uponReceiving "d") (newPactNative "C" "P" "1.0.0").pact (.int 200) .none .none).2.1 rfl

theorem applyPathStage_query (pa : PyValue) (i : Interaction) :
    (applyPathStage pa i).request.query = i.request.query := by
  cases pa <;> rfl

theorem applyPathStage_headers (pa : PyValue) (i : Interaction) :
    (applyPathStage pa i).request.headers = i.request.headers := by
  cases pa <;> rfl

theorem applyDictStage_shape (v : PyValue) (cur : Option StrMultiMap) (msg : String) :
    (applyDictStage v cur msg).1 = cur ∨
    ∃ kvs mm, v = .dict kvs ∧ buildStringMap kvs = .ok mm ∧ mm ≠ [] ∧
      (applyDictStage v cur msg).1 = some mm := by
  cases v with
  | dict kvs =>
    simp only [applyDictStage]
    cases hb : buildStringMap kvs with
    | error e => left; rfl
    | ok mm =>
      by_cases hm : mm.isEmpty
      · left; simp [hm]
      · right
        refine ⟨kvs, mm, rfl, hb, ?_, by simp [hm]⟩
        intro hcontra
        subst hcontra
        simp at hm
  | none => left; rfl
  | bool bb => left; rfl
  | int n => left; rfl
  | float qq => left; rfl
  | str ss => left; rfl
  | list xs => left; rfl
  | tuple xs => left; rfl
  | other t => left; rfl

theorem applyRequestBodyStage_query (b : PyValue) (i : Interaction) :
    (applyRequestBodyStage b i).1.request.query = i.request.query := by
  cases b <;>
    first
      | rfl
      | (simp only [applyRequestBodyStage]
         split <;> first | rfl | (split <;> rfl))

theorem applyRequestBodyStage_headers (b : PyValue) (i : Interaction) :
    (applyRequestBodyStage b i).1.request.headers = i.request.headers ∨
    ∃ cts, (applyRequestBodyStage b i).1.request.headers =
      addHeaderMap i.request.headers "Content-Type" cts := by
  cases b with
  | dict kvs =>
    simp only [applyRequestBodyStage]
    split
    · left; rfl
    · split
      · right; exact ⟨_, rfl⟩
      · left; rfl
  | list xs =>
    simp only [applyRequestBodyStage]
    split
    · left; rfl
    · split
      · right; exact ⟨_, rfl⟩
      · left; rfl
  | none => left; rfl
  | bool bb => left; rfl
  | int n => left; rfl
  | float qq => left; rfl
  | str ss => left; rfl
  | tuple xs => left; rfl
  | other t => left; rfl

theorem with_request_callback_query (m : String) (pa q hh b : PyValue) (i : Interaction) :
    (with_request_callback m pa q hh b i).1.request.query =
      (applyDictStage q i.request.query
        "with_request: Query parameters must be supplied as a Dict, got ").1 := by
  simp only [with_request_callback, applyPathStage_query]
  cases hq : applyDictStage q i.request.query
      "with_request: Query parameters must be supplied as a Dict, got " with
  | mk qv qe =>
    cases qe with
    | some e => rfl
    | none =>
      simp only []
      cases hh2 : applyDictStage hh (applyPathStage pa
          { i with request := { i.request with method := m } }).request.headers
          "with_request: Headers must be supplied as a Dict, got " with
      | mk hv he =>
        cases he with
        | some e => rfl
        | none => rw [applyRequestBodyStage_query]

theorem with_request_callback_headers (m : String) (pa q hh b : PyValue) (i : Interaction) :
    (with_request_callback m pa q hh b i).1.request.headers = i.request.headers ∨
    (∃ kvs mh, hh = .dict kvs ∧ buildStringMap kvs = .ok mh ∧ mh ≠ [] ∧
      ((with_request_callback m pa q hh b i).1.request.headers = some mh ∨
       ∃ cts, (with_request_callback m pa q hh b i).1.request.headers =
         addHeaderMap (some mh) "Content-Type" cts)) ∨
    (∃ cts, (with_request_callback m pa q hh b i).1.request.headers =
      addHeaderMap i.request.headers "Content-Type" cts) := by
  simp only [with_request_callback, applyPathStage_headers]
  cases hq : applyDictStage q (applyPathStage pa
      { i with request := { i.request with method := m } }).request.query
      "with_request: Query parameters must be supplied as a Dict, got " with
  | mk qv qe =>
    cases qe with
    | some e => left; rfl
    | none =>
      simp only []
      rcases applyDictStage_shape hh i.request.headers
          "with_request: Headers must be supplied as a Dict, got " with hcur | ⟨kvs, mh, hhd, hbm, hne, hfull⟩
      · cases hh2 : applyDictStage hh i.request.headers
            "with_request: Headers must be supplied as a Dict, got " with
        | mk hv he =>
          rw [hh2] at hcur
          simp only at hcur
          subst hcur
          cases he with
          | some e => left; rfl
          | none =>
            rcases applyRequestBodyStage_headers b _ with hb1 | ⟨cts, hb2⟩
            · left; rw [hb1]
            · right; right; exact ⟨cts, hb2⟩
      · cases hh2 : applyDictStage hh i.request.headers
            "with_request: Headers must be supplied as a Dict, got " with
        | mk hv he =>
          rw [hh2] at hfull
          simp only at hfull
          subst hfull
          cases he with
          | some e => right; left; exact ⟨kvs, mh, hhd, hbm, hne, Or.inl rfl⟩
          | none =>
            rcases applyRequestBodyStage_headers b _ with hb1 | ⟨cts, hb2⟩
            · right; left; exact ⟨kvs, mh, hhd, hbm, hne, Or.inl (by rw [hb1])⟩
            · right; left; exact ⟨kvs, mh, hhd, hbm, hne, Or.inr ⟨cts, hb2⟩⟩

/-- Claim C5 (amended): a failing `with_request` does not leave the
builder untouched — mutations made before the failing argument (method,
path) persist, and a verb that opened a new interaction still appends it
(see the counterexample) — but the interaction-sequence change is exactly
the accessor's one set-or-append of the callback result, and the query and
headers maps themselves are atomic: each field is either its previous
value or a completely converted non-empty dict (headers possibly with a
Content-Type upsert from body processing); a bad dict is rejected before
the field is assigned. -/
theorem c5_with_request_atomicity (s : BuilderState) (m : String) (pa q hh b : PyValue) :
    (s.interaction = Option.none →
      (with_request s m pa q hh b).1.pact.interactions =
        s.pact.interactions ++ [(with_request_callback m pa q hh b (openInteraction s)).1] ∧
      (with_request s m pa q hh b).2 = (with_request_callback m pa q hh b (openInteraction s)).2) ∧
    (∀ i, s.interaction = some i →
      (with_request s m pa q hh b).1.pact.interactions =
        s.pact.interactions.set i (with_request_callback m pa q hh b (openInteraction s)).1 ∧
      (with_request s m pa q hh b).2 = (with_request_callback m pa q hh b (openInteraction s)).2) ∧
    ((with_request_callback m pa q hh b (openInteraction s)).1.request.query =
       (openInteraction s).request.query ∨
     ∃ kvs mq, q = .dict kvs ∧ buildStringMap kvs = .ok mq ∧ mq ≠ [] ∧
       (with_request_callback m pa q hh b (openInteraction s)).1.request.query = some mq) ∧
    ((with_request_callback m pa q hh b (openInteraction s)).1.request.headers =
       (openInteraction s).request.headers ∨
     (∃ kvs mh, hh = .dict kvs ∧ buildStringMap kvs = .ok mh ∧ mh ≠ [] ∧
       ((with_request_callback m pa q hh b (openInteraction s)).1.request.headers = some mh ∨
        ∃ cts, (with_request_callback m pa q hh b (openInteraction s)).1.request.headers =
          addHeaderMap (some mh) "Content-Type" cts)) ∨
     (∃ cts, (with_request_callback m pa q hh b (openInteraction s)).1.request.headers =
       addHeaderMap (openInteraction s).request.headers "Content-Type" cts)) := by
  refine ⟨?_, ?_, ?_, ?_⟩
  · intro hs
    have hopen : openInteraction s = defaultInteraction := by simp [openInteraction, hs]
    rw [hopen]
    constructor
    · rw [with_request, with_current_interaction_idle s _ hs]
    · rw [with_request, with_current_interaction_idle s _ hs]
  · intro i hs
    have hopen : openInteraction s = s.pact.interactions.getD i defaultInteraction := by
      simp [openInteraction, hs]
    rw [hopen]
    constructor
    · rw [with_request, with_current_interaction_building s i _ hs]
    · rw [with_request, with_current_interaction_building s i _ hs]
  · rw [with_request_callback_query]
    exact applyDictStage_shape q (openInteraction s).request.query _
  · exact with_request_callback_headers m pa q hh b (openInteraction s)

/-- Claim C5, counterexample: on an Idle builder, `with_request` with an
integer query argument fails, yet the pact has gained an interaction and
its method was already mutated to the new value — the failed verb is
partially applied. -/
theorem c5_counterexample :
    (with_request (newPactNative "C" "P" "1.0.0") "GET" (.str "/x") (.int 42) .none .none).2 =
      some (.typeError "with_request: Query parameters must be supplied as a Dict, got int") ∧
    (with_request (newPactNative "C" "P" "1.0.0") "GET" (.str "/x")
      (.int 42) .none .none).1.pact.interactions.length = 1 ∧
    ((with_request (newPactNative "C" "P" "1.0.0") "GET" (.str "/x")
      (.int 42) .none .none).1.pact.interactions.getD 0 defaultInteraction).request.method = "GET" ∧
    (newPactNative "C" "P" "1.0.0").pact.interactions.length = 0 := ⟨rfl, rfl, rfl, rfl⟩

/-- Claim C5, witness: the accessor equation of the amended claim
evaluated on the concrete failing call of the counterexample. -/
theorem c5_with_request_atomicity_witness :
    (with_request (newPactNative "C" "P" "1.0.0") "GET" (.str "/x") (.int 42) .none .none).1.pact.interactions =
      (newPactNative "C" "P" "1.0.0").pact.interactions ++
        [(with_request_callback "GET" (.str "/x") (.int 42) .none .none
            (openInteraction (newPactNative "C" "P" "1.0.0"))).1] ∧
    (with_request (newPactNative "C" "P" "1.0.0") "GET" (.str "/x") (.int 42) .none .none).2 =
      (with_request_callback "GET" (.str "/x") (.int 42) .none .none
        (openInteraction (newPactNative "C" "P" "1.0.0"))).2 :=
  (c5_with_request_atomicity (newPactNative "C" "P" "1.0.0") "GET"
    (.str "/x") (.int 42) .none .none).1 rfl

theorem hasHeader_of_mem {l : StrMultiMap} {k : String} (e : String × List String)
    (hel : e ∈ l) (hek : (lowerAscii e.1 == lowerAscii k) = true) :
    hasHeader (some l) k = true := by
  simp only [hasHeader, headerValue]
  have hsome : (l.find? (fun h => lowerAscii h.1 == lowerAscii k)).isSome = true :=
    List.find?_isSome.mpr ⟨e, hel, hek⟩
  cases hf : l.find? (fun h => lowerAscii h.1 == lowerAscii k) with
  | none => rw [hf] at hsome; simp at hsome
  | some x => simp [hf]

theorem hasHeader_addHeaderMap (hs : Option StrMultiMap) (k : String) (vs : List String) :
    hasHeader (addHeaderMap hs k vs) k = true := by
  cases hs with
  | none => simp [hasHeader, headerValue, addHeaderMap, List.find?_cons]
  | some l =>
    simp only [addHeaderMap]
    by_cases hc : (l.map Prod.fst).contains k
    · simp only [hc, if_true]
      have hmem : k ∈ l.map Prod.fst := by simpa using hc
      rcases List.mem_map.mp hmem with ⟨e, hel, hek⟩
      exact hasHeader_of_mem (k, vs)
        (List.mem_map.mpr ⟨e, hel, by simp [hek]⟩) (by simp)
    · simp only [hc, Bool.false_eq_true, if_false]
      exact hasHeader_of_mem (k, vs)
        (List.mem_append.mpr (Or.inr (by simp))) (by simp)

theorem headerValue_addHeaderMap_of_not_hasHeader (hs : Option StrMultiMap) (k : String)
    (vs : List String) (h : hasHeader hs k = false) :
    headerValue (addHeaderMap hs k vs) k = some vs := by
  cases hs with
  | none => simp [addHeaderMap, headerValue, List.find?_cons]
  | some l =>
    simp only [hasHeader, headerValue] at h
    have hfind : l.find? (fun e => lowerAscii e.1 == lowerAscii k) = Option.none := by
      cases hf : l.find? (fun e => lowerAscii e.1 == lowerAscii k) with
      | none => rfl
      | some x => rw [hf] at h; simp at h
    have hc : (l.map Prod.fst).contains k = false := by
      by_contra hc'
      rw [Bool.not_eq_false] at hc'
      have hmem : k ∈ l.map Prod.fst := by simpa using hc'
      rcases List.mem_map.mp hmem with ⟨e, hel, hek⟩
      have hsome : (l.find? (fun e => lowerAscii e.1 == lowerAscii k)).isSome = true :=
        List.find?_isSome.mpr ⟨e, hel, by simp [hek]⟩
      rw [hfind] at hsome
      simp at hsome
    simp only [addHeaderMap, hc, Bool.false_eq_true, if_false, headerValue]
    rw [List.find?_append, hfind]
    simp [List.find?_cons]

theorem applyPathStage_body (pa : PyValue) (i : Interaction) :
    (applyPathStage pa i).request.body = i.request.body := by
  cases pa <;> rfl

theorem applyPathStage_rules (pa : PyValue) (i : Interaction) :
    (applyPathStage pa i).request.matchingRules = i.request.matchingRules := by
  cases pa <;> rfl

theorem add_request_binary_file_callback_spec (fileData : String → Option (List Nat))
    (ct fp m : String) (pa q hh : PyValue) (i : Interaction) :
    ((add_request_binary_file_callback fileData ct fp m pa q hh i).2 = Option.none →
      ∃ data, fileData fp = some data ∧
        (add_request_binary_file_callback fileData ct fp m pa q hh i).1.request.body =
          .present (.ofFile data) Option.none ∧
        (add_request_binary_file_callback fileData ct fp m pa q hh i).1.request.matchingRules =
          addRule (addCategory i.request.matchingRules "body") "body" "$"
            (.contentType ct) .and ∧
        hasHeader (add_request_binary_file_callback fileData ct fp m pa q hh i).1.request.headers
          "Content-Type" = true) ∧
    (hasHeader (applyDictStage hh i.request.headers
        "with_request: Headers must be supplied as a Dict, got ").1 "Content-Type" = false →
      (add_request_binary_file_callback fileData ct fp m pa q hh i).2 = Option.none →
      headerValue (add_request_binary_file_callback fileData ct fp m pa q hh i).1.request.headers
        "Content-Type" = some ["application/octet-stream"]) ∧
    (fileData fp = Option.none →
      (add_request_binary_file_callback fileData ct fp m pa q hh i).2 ≠ Option.none ∧
      (add_request_binary_file_callback fileData ct fp m pa q hh i).1.request.body =
        i.request.body) := by
  simp only [add_request_binary_file_callback, applyPathStage_query, applyPathStage_headers,
    applyPathStage_body, applyPathStage_rules]
  cases hq : applyDictStage q i.request.query
      "with_request: Query parameters must be supplied as a Dict, got " with
  | mk qv qe =>
    cases qe with
    | some e =>
      refine ⟨?_, ?_, ?_⟩
      · intro hcontra; exact absurd hcontra (by simp)
      · intro _ hcontra; exact absurd hcontra (by simp)
      · intro _; exact ⟨by simp, by simp [applyPathStage_body]⟩
    | none =>
      simp only []
      cases hh2 : applyDictStage hh i.request.headers
          "with_request: Headers must be supplied as a Dict, got " with
      | mk hv he =>
        cases he with
        | some e =>
          refine ⟨?_, ?_, ?_⟩
          · intro hcontra; exact absurd hcontra (by simp)
          · intro _ hcontra; exact absurd hcontra (by simp)
          · intro _; exact ⟨by simp, by simp [applyPathStage_body]⟩
        | none =>
          cases hf : fileData fp with
          | some data =>
            refine ⟨?_, ?_, ?_⟩
            · intro _
              refine ⟨data, rfl, ?_, ?_, ?_⟩
              · by_cases hch : hasHeader hv "Content-Type" <;>
                  simp [hch, applyPathStage_body, applyPathStage_rules]
              · by_cases hch : hasHeader hv "Content-Type" <;>
                  simp [hch, applyPathStage_body, applyPathStage_rules]
              · by_cases hch : hasHeader hv "Content-Type"
                · simp [hch]
                · simp only [hch, Bool.false_eq_true, if_false]
                  exact hasHeader_addHeaderMap hv "Content-Type" ["application/octet-stream"]
            · intro hch _
              simp only at hch
              simp only [hch, Bool.false_eq_true, if_false]
              exact headerValue_addHeaderMap_of_not_hasHeader hv "Content-Type"
                ["application/octet-stream"] hch
            · intro hcontra
              exact absurd hcontra (by simp)
          | none =>
            refine ⟨?_, ?_, ?_⟩
            · intro hcontra; exact absurd hcontra (by simp)
            · intro _ hcontra; exact absurd hcontra (by simp)
            · intro _; exact ⟨by simp, by simp [applyPathStage_body]⟩


/-- Claim C6 (amended): a successful `add_request_binary_file` makes the
file's bytes the literal request body and attaches a content-type matching
rule for the supplied type at `$` in the `body` category; whenever no
Content-Type header is present at the point of the check (after the
headers argument was applied, whatever headers were supplied), the header
is set to the fixed value `application/octet-stream`, NOT to the supplied
content type (see the counterexample); a Content-Type header is present
afterwards either way; when the file cannot be read the call fails and
the body is left untouched.  The pact change is the accessor's
set-or-append of the callback result. -/
theorem c6_add_request_binary_file (fileData : String → Option (List Nat)) (s : BuilderState)
    (ct fp m : String) (pa q hh : PyValue) :
    (s.interaction = Option.none →
      (add_request_binary_file fileData s ct fp m pa q hh).1.pact.interactions =
        s.pact.interactions ++
          [(add_request_binary_file_callback fileData ct fp m pa q hh (openInteraction s)).1] ∧
      (add_request_binary_file fileData s ct fp m pa q hh).2 =
        (add_request_binary_file_callback fileData ct fp m pa q hh (openInteraction s)).2) ∧
    (∀ i, s.interaction = some i →
      (add_request_binary_file fileData s ct fp m pa q hh).1.pact.interactions =
        s.pact.interactions.set i
          (add_request_binary_file_callback fileData ct fp m pa q hh (openInteraction s)).1 ∧
      (add_request_binary_file fileData s ct fp m pa q hh).2 =
        (add_request_binary_file_callback fileData ct fp m pa q hh (openInteraction s)).2) ∧
    ((add_request_binary_file_callback fileData ct fp m pa q hh (openInteraction s)).2 =
        Option.none →
      ∃ data, fileData fp = some data ∧
        (add_request_binary_file_callback fileData ct fp m pa q hh
            (openInteraction s)).1.request.body = .present (.ofFile data) Option.none ∧
        (add_request_binary_file_callback fileData ct fp m pa q hh
            (openInteraction s)).1.request.matchingRules =
          addRule (addCategory (openInteraction s).request.matchingRules "body") "body" "$"
            (.contentType ct) .and ∧
        hasHeader (add_request_binary_file_callback fileData ct fp m pa q hh
            (openInteraction s)).1.request.headers "Content-Type" = true) ∧
    (hasHeader (applyDictStage hh (openInteraction s).request.headers
        "with_request: Headers must be supplied as a Dict, got ").1 "Content-Type" = false →
      (add_request_binary_file_callback fileData ct fp m pa q hh (openInteraction s)).2 =
        Option.none →
      headerValue (add_request_binary_file_callback fileData ct fp m pa q hh
          (openInteraction s)).1.request.headers "Content-Type" =
        some ["application/octet-stream"]) ∧
    (fileData fp = Option.none →
      (add_request_binary_file_callback fileData ct fp m pa q hh (openInteraction s)).2 ≠
        Option.none ∧
      (add_request_binary_file_callback fileData ct fp m pa q hh
          (openInteraction s)).1.request.body = (openInteraction s).request.body) := by
  refine ⟨?_, ?_,
    (add_request_binary_file_callback_spec fileData ct fp m pa q hh (openInteraction s)).1,
    (add_request_binary_file_callback_spec fileData ct fp m pa q hh (openInteraction s)).2.1,
    (add_request_binary_file_callback_spec fileData ct fp m pa q hh (openInteraction s)).2.2⟩
  · intro hs
    have hopen : openInteraction s = defaultInteraction := by simp [openInteraction, hs]
    rw [hopen]
    constructor
    · rw [add_request_binary_file, with_current_interaction_idle s _ hs]
    · rw [add_request_binary_file, with_current_interaction_idle s _ hs]
  · intro i hs
    have hopen : openInteraction s = s.pact.interactions.getD i defaultInteraction := by
      simp [openInteraction, hs]
    rw [hopen]
    constructor
    · rw [add_request_binary_file, with_current_interaction_building s i _ hs]
    · rw [add_request_binary_file, with_current_interaction_building s i _ hs]

/-- Claim C6, counterexample: a successful call with supplied content type
`image/png` and no pre-existing headers sets the Content-Type header to
`application/octet-stream`, not to the supplied value the claim requires
(the supplied type goes only into the matching rule). -/
theorem c6_counterexample :
    (add_request_binary_file fsLogo (newPactNative "C" "P" "1.0.0") "image/png" "logo.png"
        "POST" (.str "/i") .none .none).2 = Option.none ∧
    ((add_request_binary_file fsLogo (newPactNative "C" "P" "1.0.0") "image/png" "logo.png"
        "POST" (.str "/i") .none .none).1.pact.interactions.getD 0
        defaultInteraction).request.headers =
      some [("Content-Type", ["application/octet-stream"])] ∧
    (["application/octet-stream"] : List String) ≠ ["image/png"] := ⟨rfl, rfl, by decide⟩

/-- Claim C6, witness: a successful call that supplies a headers dict
without a Content-Type key still gets the octet-stream default. -/
theorem c6_add_request_binary_file_witness :
    headerValue (add_request_binary_file_callback fsLogo "image/png" "logo.png" "POST"
        (.str "/i") .none (.dict [(.str "X-Foo", .str "bar")])
        (openInteraction (newPactNative "C" "P" "1.0.0"))).1.request.headers "Content-Type" =
      some ["application/octet-stream"] :=
  (c6_add_request_binary_file fsLogo (newPactNative "C" "P" "1.0.0") "image/png" "logo.png"
    "POST" (.str "/i") .none (.dict [(.str "X-Foo", .str "bar")])).2.2.2.1 rfl rfl
